import Mathlib

/-!
Shallow embedding of `paymentxp_client/client.py` (the PaymentXP gateway
client) and verification of its specification.

Modelling conventions:
* Python `dict` values become association lists (`Dict α`) whose insert
  (`dictSet`) replaces the value of an existing key in place and otherwise
  appends, exactly Python's insertion-order semantics.  All dictionaries in
  the client are built from the empty dict (or a literal with distinct
  keys), so keys stay unique.
* The HTTP collaborator (`requests.post`) is a parameter of type
  `Transport`: given the endpoint path and the form data it either raises
  (a transport-level exception of the underlying HTTP library, modelled as
  `Except.error msg`) or delivers an `HttpResponse` with a status code and
  a body.
* Exceptions become `Except PyError`: `PyError.paymentXpException` is the
  client's own `PaymentXpException`, `PyError.keyError` is Python's
  `KeyError` from a `dict` lookup, and `PyError.transportError` is an
  exception raised by the HTTP library itself (which is *not* a
  `PaymentXpException`).
* `uuid4()` is nondeterministic, so the generated reference number is a
  parameter `reference_number` of `authorize_payment`.
* Python `float` amounts are never computed on by this client, only carried
  into the request; they are modelled as `Rat` wrapped in `PyVal.float`.
* `datetime.date` becomes `PDate`; `strftime('%m%d%Y')` becomes
  `PDate.strftime`.
-/

set_option linter.unusedVariables false

deriving instance DecidableEq for Except

namespace PaymentXp

/-- Helper for `pySplit`: walk the characters, cutting at each separator.
`acc` holds the characters of the current field, in reverse. -/
def pySplitAux (sep : Char) : List Char → List Char → List String
  | [], acc => [String.mk acc.reverse]
  | ch :: rest, acc =>
    if ch = sep then String.mk acc.reverse :: pySplitAux sep rest []
    else pySplitAux sep rest (ch :: acc)

/-- Python's `s.split(sep)` for a one-character separator (the only form
the client uses): every occurrence of `sep` cuts a field, empty fields are
kept, and the empty string splits to `[""]`. -/
def pySplit (s : String) (sep : Char) : List String :=
  pySplitAux sep s.data []

/-- `BillingAddress` dataclass: street address, city, state, zip code. -/
structure BillingAddress where
  address : String
  city : String
  state : String
  zipcode : String
deriving DecidableEq, Repr

/-- `CardInfo` dataclass: name, number, expiration (MMYY), cvv2, address. -/
structure CardInfo where
  name : String
  number : String
  expiration : String
  cvv2 : String
  address : BillingAddress
deriving DecidableEq, Repr

/-- `AuthorizationResponse` dataclass. -/
structure AuthorizationResponse where
  is_successful : Bool
  transaction_id : String
  reference_number : String
deriving DecidableEq, Repr

/-- `CaptureResponse` dataclass. -/
structure CaptureResponse where
  is_successful : Bool
deriving DecidableEq, Repr

/-- A `datetime.date` value (year, month, day). -/
structure PDate where
  year : Nat
  month : Nat
  day : Nat
deriving DecidableEq, Repr

/-- Zero-pad a number to two digits, as `%m` and `%d` do. -/
def zpad2 (n : Nat) : String :=
  if n < 10 then "0" ++ toString n else "" ++ toString n

/-- `d.strftime('%m%d%Y')`: month and day zero-padded to two digits,
followed by the year. -/
def PDate.strftime (d : PDate) : String :=
  zpad2 d.month ++ zpad2 d.day ++ toString d.year

/-- A value stored in a Python request dictionary: a string, an `int`
literal, or a `float` amount (carried through untouched, modelled as a
rational). -/
inductive PyVal where
  | str (s : String)
  | int (n : Int)
  | float (q : Rat)
deriving DecidableEq, Repr

/-- A Python `dict` with `String` keys, as an insertion-ordered
association list. -/
abbrev Dict (α : Type) : Type := List (String × α)

/-- The keys of a dict, in insertion order. -/
def dictKeys {α : Type} (d : Dict α) : List String :=
  d.map Prod.fst

/-- `d[k]` as an `Option`: the value at the first (hence, for dicts built
by `dictSet`, the only) occurrence of `k`. -/
def dictGet {α : Type} : Dict α → String → Option α
  | [], _ => none
  | p :: rest, k => if p.1 == k then some p.2 else dictGet rest k

/-- `d[k] = v`: replace the value at an existing key in place, otherwise
append the new pair — Python's dict assignment on unique-keyed dicts. -/
def dictSet {α : Type} : Dict α → String → α → Dict α
  | [], k, v => [(k, v)]
  | p :: rest, k, v => if p.1 == k then (k, v) :: rest else p :: dictSet rest k v

/-- `d.update(upd)`: assign every pair of `upd` into `d`, in order. -/
def dictUpdate {α : Type} (d upd : Dict α) : Dict α :=
  upd.foldl (fun acc p => dictSet acc p.1 p.2) d

/-- `d[k]` as Python evaluates it: `KeyError` when the key is absent. -/
inductive PyError where
  | paymentXpException (msg : String)
  | keyError (key : String)
  | transportError (msg : String)
deriving DecidableEq, Repr

/-- An HTTP response as exposed by the transport: `status_code` and the
decoded `content` body. -/
structure HttpResponse where
  status_code : Nat
  content : String
deriving DecidableEq, Repr

/-- The outcome of `requests.post(url, data, headers)` for a given endpoint
path and form data: either the HTTP library raises (a transport-level
failure, not a `PaymentXpException`) or an HTTP response arrives. -/
abbrev Transport : Type := String → Dict PyVal → Except String HttpResponse

/-- The `PaymentXpClient` configuration: merchant credentials. -/
structure PaymentXpClient where
  merchant_id : String
  merchant_key : String
deriving DecidableEq, Repr

/-- `PaymentXpClient.BASE_URL`. -/
def BASE_URL : String := "https://webservice.paymentxp.com/wh"

/-- `_get_url`: `"{BASE_URL}/{path}"`. -/
def PaymentXpClient.get_url (c : PaymentXpClient) (path : String) : String :=
  BASE_URL ++ "/" ++ path

/-- One step of `_parse_response`'s loop body: split the piece on `=`;
two fields give a key/value pair, one field gives the key with an empty
value, anything else is skipped (`continue`). -/
def parse_step (output : Dict String) (piece : String) : Dict String :=
  match pySplit piece '=' with
  | [key, value] => dictSet output key value
  | [key] => dictSet output key ""
  | _ => output

/-- `_parse_response`: decode the body, split on `&`, and fold the pieces
into a dict. -/
def parse_response (content : String) : Dict String :=
  (pySplit content '&').foldl parse_step []

/-- The message of the `PaymentXpException` raised on a non-200 status:
`"Request failed: {status_code} {content}"`. -/
def request_failed_message (response : HttpResponse) : String :=
  "Request failed: " ++ toString response.status_code ++ " " ++ response.content

/-- `_make_request`: POST the form data to the path; a raise from the HTTP
library propagates as-is; a non-200 status raises `PaymentXpException` with
the status code and body; a 200 status yields the parsed response dict. -/
def PaymentXpClient.make_request (c : PaymentXpClient) (t : Transport)
    (path : String) (data : Dict PyVal) : Except PyError (Dict String) :=
  match t path data with
  | .error msg => .error (.transportError msg)
  | .ok response =>
    if response.status_code ≠ 200 then
      .error (.paymentXpException (request_failed_message response))
    else
      .ok (parse_response response.content)

/-- `response[k]` on a parsed response: `KeyError` when absent. -/
def dictGetE (d : Dict String) (k : String) : Except PyError String :=
  match dictGet d k with
  | some v => .ok v
  | none => .error (.keyError k)

/-- The request dictionary literal built by `authorize_payment`. -/
def PaymentXpClient.authorize_payment_data (c : PaymentXpClient)
    (card_info : CardInfo) (amount : Rat) (reference_number : String) : Dict PyVal :=
  [("CardNumber", .str card_info.number),
   ("ExpirationDateMMYY", .str card_info.expiration),
   ("BillingFullName", .str card_info.name),
   ("BillingAddress", .str card_info.address.address),
   ("BillingZipCode", .str card_info.address.zipcode),
   ("BillingCity", .str card_info.address.city),
   ("BillingState", .str card_info.address.state),
   ("MerchantID", .str c.merchant_id),
   ("MerchantKey", .str c.merchant_key),
   ("ReferenceNumber", .str reference_number),
   ("TransactionAmount", .float amount),
   ("TransactionType", .str "CreditCardAuthorization")]

/-- `authorize_payment`: send the authorization request; only a
`PaymentXpException` is caught (soft failure keeping the generated
reference number); after the `try` block the `StatusID` and
`TransactionID` lookups can still raise `KeyError`. -/
def PaymentXpClient.authorize_payment (c : PaymentXpClient) (t : Transport)
    (card_info : CardInfo) (amount : Rat) (reference_number : String) :
    Except PyError AuthorizationResponse :=
  match c.make_request t "webhost.aspx"
      (c.authorize_payment_data card_info amount reference_number) with
  | .error (.paymentXpException _) =>
      .ok { is_successful := false, transaction_id := "",
            reference_number := reference_number }
  | .error e => .error e
  | .ok response =>
      match dictGetE response "StatusID", dictGetE response "TransactionID" with
      | .ok sid, .ok tid =>
          .ok { is_successful := sid == "0", transaction_id := tid,
                reference_number := reference_number }
      | .error e, _ => .error e
      | _, .error e => .error e

/-- The request dictionary literal built by `capture_payment`. -/
def PaymentXpClient.capture_payment_data (c : PaymentXpClient)
    (transaction_id : String) (reference_number : String) (amount : Rat) : Dict PyVal :=
  [("MerchantID", .str c.merchant_id),
   ("MerchantKey", .str c.merchant_key),
   ("ReferenceNumber", .str reference_number),
   ("TransactionAmount", .float amount),
   ("TransactionID", .str transaction_id),
   ("TransactionType", .str "CreditCardSettle")]

/-- `capture_payment`: same soft-failure handling of `PaymentXpException`
as `authorize_payment`; on a parsed response only `StatusID` is read. -/
def PaymentXpClient.capture_payment (c : PaymentXpClient) (t : Transport)
    (transaction_id : String) (reference_number : String) (amount : Rat) :
    Except PyError CaptureResponse :=
  match c.make_request t "webhost.aspx"
      (c.capture_payment_data transaction_id reference_number amount) with
  | .error (.paymentXpException _) => .ok { is_successful := false }
  | .error e => .error e
  | .ok response =>
      match dictGetE response "StatusID" with
      | .ok sid => .ok { is_successful := sid == "0" }
      | .error e => .error e

/-- The request dictionary literal built by `charge_card`. -/
def PaymentXpClient.charge_card_data (c : PaymentXpClient)
    (card_info : CardInfo) (amount : Rat) : Dict PyVal :=
  [("CardNumber", .str card_info.number),
   ("ExpirationDateMMYY", .str card_info.expiration),
   ("BillingFullName", .str card_info.name),
   ("BillingAddress", .str card_info.address.address),
   ("BillingZipCode", .str card_info.address.zipcode),
   ("BillingCity", .str card_info.address.city),
   ("BillingState", .str card_info.address.state),
   ("MerchantID", .str c.merchant_id),
   ("MerchantKey", .str c.merchant_key),
   ("TransactionAmount", .float amount),
   ("TransactionType", .str "CreditCardCharge")]

/-- `charge_card`: no exception handling — faults propagate. -/
def PaymentXpClient.charge_card (c : PaymentXpClient) (t : Transport)
    (card_info : CardInfo) (amount : Rat) : Except PyError (Dict String) :=
  c.make_request t "webhost.aspx" (c.charge_card_data card_info amount)

/-- The request dictionary literal built by `cancel_recurring_charge`. -/
def PaymentXpClient.cancel_recurring_charge_data (c : PaymentXpClient)
    (recur_id : String) : Dict PyVal :=
  [("MerchantID", .str c.merchant_id),
   ("MerchantKey", .str c.merchant_key),
   ("RecurID", .str recur_id),
   ("TransactionType", .str "CreditCardRecurringUpdate"),
   ("IsEnabled", .int 0)]

/-- `cancel_recurring_charge`: POSTs to `webHost.aspx` (capital H). -/
def PaymentXpClient.cancel_recurring_charge (c : PaymentXpClient) (t : Transport)
    (recur_id : String) : Except PyError (Dict String) :=
  c.make_request t "webHost.aspx" (c.cancel_recurring_charge_data recur_id)

/-- The start-date adjustment at the head of `create_recurring_charge`:
`day_of_month = start_date.day`; when the day is past the 28th, move to the
1st of the next month (January of the next year from December); otherwise
keep the date and day unchanged.  Returns the (possibly replaced)
`start_date` and `day_of_month`. -/
def normalize_start_date (start_date : PDate) : PDate × Nat :=
  let day_of_month := start_date.day
  if day_of_month > 28 then
    if start_date.month = 12 then
      (⟨start_date.year + 1, 1, 1⟩, 1)
    else
      (⟨start_date.year, start_date.month + 1, 1⟩, 1)
  else
    (start_date, day_of_month)

/-- The request dictionary literal built by `create_recurring_charge`,
after the start-date adjustment. -/
def PaymentXpClient.create_recurring_charge_data (c : PaymentXpClient)
    (card_info : CardInfo) (amount : Rat) (start_date end_date : PDate) : Dict PyVal :=
  let nd := normalize_start_date start_date
  [("CardNumber", .str card_info.number),
   ("ExpirationDateMMYY", .str card_info.expiration),
   ("BillingFullName", .str card_info.name),
   ("BillingAddress", .str card_info.address.address),
   ("BillingZipCode", .str card_info.address.zipcode),
   ("BillingCity", .str card_info.address.city),
   ("BillingState", .str card_info.address.state),
   ("MerchantID", .str c.merchant_id),
   ("MerchantKey", .str c.merchant_key),
   ("TransactionAmount", .float amount),
   ("OccurenceOption", .int 2),
   ("MonthlyOption", .int 1),
   ("MonthOfYearOption", .int 1),
   ("DayOfMonthOption", .int nd.2),
   ("StartDate", .str nd.1.strftime),
   ("EndDate", .str end_date.strftime),
   ("TransactionType", .str "CreditCardRecurringCharge")]

/-- `create_recurring_charge`: adjust the start date, POST, propagate
faults. -/
def PaymentXpClient.create_recurring_charge (c : PaymentXpClient) (t : Transport)
    (card_info : CardInfo) (amount : Rat) (start_date end_date : PDate) :
    Except PyError (Dict String) :=
  c.make_request t "webhost.aspx"
    (c.create_recurring_charge_data card_info amount start_date end_date)

/-- The request dictionary literal built by `get_paysafe_token`. -/
def PaymentXpClient.get_paysafe_token_data (c : PaymentXpClient)
    (card_info : CardInfo) : Dict PyVal :=
  [("CardNumber", .str card_info.number),
   ("CVV2", .str card_info.cvv2),
   ("ExpirationDateMMYY", .str card_info.expiration),
   ("MerchantID", .str c.merchant_id)]

/-- `get_paysafe_token`: POST to `GetToken.aspx` and return
`response['Token']`; a missing `Token` key is a `KeyError`. -/
def PaymentXpClient.get_paysafe_token (c : PaymentXpClient) (t : Transport)
    (card_info : CardInfo) : Except PyError String :=
  match c.make_request t "GetToken.aspx" (c.get_paysafe_token_data card_info) with
  | .error e => .error e
  | .ok response => dictGetE response "Token"

/-- The request dictionary built by `update_recurring_charge`: the base
pairs, then `data.update({...})` for a present `card_info`, then one
assignment each for present `amount`, `start_date`, `end_date`.  The
`interval` argument is never read. -/
def PaymentXpClient.update_recurring_charge_data (c : PaymentXpClient)
    (recur_id : String) (card_info : Option CardInfo) (amount : Option Rat)
    (start_date : Option PDate) (end_date : Option PDate) (interval : Option Int) :
    Dict PyVal :=
  let data : Dict PyVal :=
    [("MerchantID", .str c.merchant_id),
     ("MerchantKey", .str c.merchant_key),
     ("RecurID", .str recur_id),
     ("TransactionType", .str "CreditCardRecurringUpdate")]
  let data := match card_info with
    | some ci => dictUpdate data
        [("CardNumber", .str ci.number),
         ("ExpirationDateMMYY", .str ci.expiration),
         ("BillingFullName", .str ci.name),
         ("BillingAddress", .str ci.address.address),
         ("BillingZipCode", .str ci.address.zipcode),
         ("BillingCity", .str ci.address.city),
         ("BillingState", .str ci.address.state)]
    | none => data
  let data := match amount with
    | some a => dictSet data "TransactionAmount" (.float a)
    | none => data
  let data := match start_date with
    | some sd => dictSet data "StartDate" (.str sd.strftime)
    | none => data
  let data := match end_date with
    | some ed => dictSet data "EndDate" (.str ed.strftime)
    | none => data
  data

/-- `update_recurring_charge`: POSTs the assembled data to `webHost.aspx`;
faults propagate. -/
def PaymentXpClient.update_recurring_charge (c : PaymentXpClient) (t : Transport)
    (recur_id : String) (card_info : Option CardInfo) (amount : Option Rat)
    (start_date : Option PDate) (end_date : Option PDate) (interval : Option Int) :
    Except PyError (Dict String) :=
  c.make_request t "webHost.aspx"
    (c.update_recurring_charge_data recur_id card_info amount start_date end_date interval)

/-- A concrete billing address for witnesses. -/
def sampleAddress : BillingAddress :=
  { address := "123 Main St", city := "Springfield", state := "IL", zipcode := "62704" }

/-- A concrete card for witnesses. -/
def sampleCard : CardInfo :=
  { name := "Jane Doe", number := "4111111111111111", expiration := "1230",
    cvv2 := "123", address := sampleAddress }

/-- A concrete client for witnesses. -/
def sampleClient : PaymentXpClient :=
  { merchant_id := "mid", merchant_key := "mkey" }

/-- A transport on which `requests.post` itself raises (e.g. a connection
error): a transport-level failure that is not a `PaymentXpException`. -/
def failingTransport : Transport :=
  fun _ _ => .error "connection refused"

/-- A transport that always answers with HTTP 500 and body `"oops"`. -/
def error500Transport : Transport :=
  fun _ _ => .ok { status_code := 500, content := "oops" }

/-- A transport that always answers 200 with the given body. -/
def okTransport (body : String) : Transport :=
  fun _ _ => .ok { status_code := 200, content := body }

/-- Assigning a key always makes a later lookup of that key return the new
value: the later occurrence overwrites the earlier one. -/
theorem dictGet_dictSet {α : Type} (d : Dict α) (k : String) (v : α) :
    dictGet (dictSet d k v) k = some v := by
  induction d with
  | nil => simp [dictSet, dictGet]
  | cons p rest ih =>
    by_cases h : p.1 == k
    · simp [dictSet, dictGet, h]
    · simp [dictSet, dictGet, h, ih]

/-- C1 (counterexample): on a transport-level failure — `requests.post`
itself raising, here a connection error — `authorize_payment` does not
return an `AuthorizationResponse` at all: the exception is not a
`PaymentXpException`, so the `except` clause does not catch it and it
propagates to the caller. -/
theorem authorize_payment_transport_error_propagates :
    sampleClient.authorize_payment failingTransport sampleCard 5 "ref-1"
      = .error (.transportError "connection refused") := by decide

/-- C1 (amended): when the POST completes with a non-200 status,
`authorize_payment` returns `AuthorizationResponse` with
`is_successful = false`, `transaction_id = ""` and the reference number
generated before sending, and `capture_payment` returns
`CaptureResponse(is_successful = false)`, without propagating the
exception; but an exception raised by the HTTP transport itself is not
caught by either operation and propagates to the caller. -/
theorem authorize_capture_soft_failure (c : PaymentXpClient) (t : Transport)
    (card : CardInfo) (amount : Rat) (ref txid msg : String) (resp : HttpResponse) :
    (t "webhost.aspx" (c.authorize_payment_data card amount ref) = .ok resp →
      resp.status_code ≠ 200 →
      c.authorize_payment t card amount ref
        = .ok { is_successful := false, transaction_id := "", reference_number := ref })
    ∧ (t "webhost.aspx" (c.capture_payment_data txid ref amount) = .ok resp →
      resp.status_code ≠ 200 →
      c.capture_payment t txid ref amount = .ok { is_successful := false })
    ∧ (t "webhost.aspx" (c.authorize_payment_data card amount ref) = .error msg →
      c.authorize_payment t card amount ref = .error (.transportError msg))
    ∧ (t "webhost.aspx" (c.capture_payment_data txid ref amount) = .error msg →
      c.capture_payment t txid ref amount = .error (.transportError msg)) := by
  refine ⟨?_, ?_, ?_, ?_⟩
  · intro h hne
    simp [PaymentXpClient.authorize_payment, PaymentXpClient.make_request, h, hne]
  · intro h hne
    simp [PaymentXpClient.capture_payment, PaymentXpClient.make_request, h, hne]
  · intro h
    simp [PaymentXpClient.authorize_payment, PaymentXpClient.make_request, h]
  · intro h
    simp [PaymentXpClient.capture_payment, PaymentXpClient.make_request, h]

/-- C1 (witness for the amended theorem): a concrete 500 response makes
`authorize_payment` return the soft-failure result. -/
theorem authorize_capture_soft_failure_witness :
    sampleClient.authorize_payment error500Transport sampleCard 5 "ref-1"
      = .ok { is_successful := false, transaction_id := "", reference_number := "ref-1" } :=
  (authorize_capture_soft_failure sampleClient error500Transport sampleCard 5 "ref-1"
      "txid" "msg" { status_code := 500, content := "oops" }).1 rfl (by decide)

/-- C2: `create_recurring_charge` replaces a start date whose day exceeds
28 by the 1st of the following calendar month (January of the next year
from December) and leaves a day ≤ 28 unchanged; the request carries the
normalized date (as `StartDate`, formatted MMDDYYYY) and the normalized
day (as `DayOfMonthOption`); 2024-02-29 normalizes to 2024-03-01 with day
1, and 2024-12-30 to 2025-01-01. -/
theorem create_recurring_charge_date_normalization
    (c : PaymentXpClient) (card : CardInfo) (amount : Rat) (sd ed : PDate) :
    (sd.day > 28 → normalize_start_date sd =
      (if sd.month = 12 then (⟨sd.year + 1, 1, 1⟩, 1) else (⟨sd.year, sd.month + 1, 1⟩, 1)))
    ∧ (sd.day ≤ 28 → normalize_start_date sd = (sd, sd.day))
    ∧ dictGet (c.create_recurring_charge_data card amount sd ed) "StartDate"
        = some (.str (normalize_start_date sd).1.strftime)
    ∧ dictGet (c.create_recurring_charge_data card amount sd ed) "DayOfMonthOption"
        = some (.int ((normalize_start_date sd).2 : Int))
    ∧ normalize_start_date ⟨2024, 2, 29⟩ = (⟨2024, 3, 1⟩, 1)
    ∧ normalize_start_date ⟨2024, 12, 30⟩ = (⟨2025, 1, 1⟩, 1)
    ∧ PDate.strftime ⟨2024, 3, 1⟩ = "03012024"
    ∧ PDate.strftime ⟨2025, 1, 1⟩ = "01012025" := by
  refine ⟨?_, ?_, rfl, rfl, by decide, by decide, by decide, by decide⟩
  · intro h
    simp [normalize_start_date, h]
  · intro h
    have hn : ¬ (sd.day > 28) := by omega
    simp [normalize_start_date, hn]

/-- C2 (witness): the normalization evaluated at 2024-12-30 rolls over to
2025-01-01. -/
theorem create_recurring_charge_date_normalization_witness :
    normalize_start_date ⟨2024, 12, 30⟩ = (⟨2025, 1, 1⟩, 1) := by
  have h := (create_recurring_charge_date_normalization sampleClient sampleCard 10
      ⟨2024, 12, 30⟩ ⟨2025, 12, 31⟩).1 (by decide)
  simpa using h

/-- C3: `_parse_response` splits the body on `&`; a piece splitting on `=`
into exactly two fields yields that key/value pair, a piece with no `=`
yields the key mapped to `""`, a piece splitting into three or more fields
is dropped, and a later assignment of the same key overwrites the earlier
one.  The three examples of the specification evaluate as stated. -/
theorem parse_response_spec (d : Dict String) (piece k v a b w : String)
    (rest : List String) :
    parse_response "StatusID=0&TransactionID=ABC123"
      = [("StatusID", "0"), ("TransactionID", "ABC123")]
    ∧ parse_response "Flag&StatusID=0" = [("Flag", ""), ("StatusID", "0")]
    ∧ parse_response "A=1=2&B=3" = [("B", "3")]
    ∧ parse_response "A=1&A=2" = [("A", "2")]
    ∧ (∀ s : String, parse_response s = (pySplit s '&').foldl parse_step [])
    ∧ (pySplit piece '=' = [k, v] → parse_step d piece = dictSet d k v)
    ∧ (pySplit piece '=' = [k] → parse_step d piece = dictSet d k "")
    ∧ (pySplit piece '=' = a :: b :: w :: rest → parse_step d piece = d)
    ∧ dictGet (dictSet d k v) k = some v := by
  refine ⟨by decide, by decide, by decide, by decide, fun _ => rfl, ?_, ?_, ?_,
    dictGet_dictSet d k v⟩
  · intro h
    unfold parse_step
    rw [h]
  · intro h
    unfold parse_step
    rw [h]
  · intro h
    unfold parse_step
    rw [h]

/-- C3 (witness): the key/value branch evaluated on the concrete piece
`"X=Y"`. -/
theorem parse_response_spec_witness :
    parse_step [] "X=Y" = dictSet [] "X" "Y" :=
  (parse_response_spec [] "X=Y" "X" "Y" "" "" "" []).2.2.2.2.2.1 (by decide)

/-- C4: on a 200 response, `authorize_payment` returns `is_successful`
true exactly when the parsed `StatusID` is `"0"`, `transaction_id` equal
to the parsed `TransactionID`, and `reference_number` equal to the
identifier generated before the call — the same value sent as the
`ReferenceNumber` request parameter; `capture_payment`'s `is_successful`
is likewise `StatusID == "0"`. -/
theorem authorize_capture_success_parsing (c : PaymentXpClient) (t : Transport)
    (card : CardInfo) (amount : Rat) (ref txid sid tid : String) (resp : HttpResponse) :
    dictGet (c.authorize_payment_data card amount ref) "ReferenceNumber"
      = some (.str ref)
    ∧ (t "webhost.aspx" (c.authorize_payment_data card amount ref) = .ok resp →
      resp.status_code = 200 →
      dictGet (parse_response resp.content) "StatusID" = some sid →
      dictGet (parse_response resp.content) "TransactionID" = some tid →
      c.authorize_payment t card amount ref
        = .ok { is_successful := sid == "0", transaction_id := tid, reference_number := ref })
    ∧ (t "webhost.aspx" (c.capture_payment_data txid ref amount) = .ok resp →
      resp.status_code = 200 →
      dictGet (parse_response resp.content) "StatusID" = some sid →
      c.capture_payment t txid ref amount = .ok { is_successful := sid == "0" }) := by
  refine ⟨rfl, ?_, ?_⟩
  · intro h1 h2 h3 h4
    simp [PaymentXpClient.authorize_payment, PaymentXpClient.make_request, h1, h2,
      dictGetE, h3, h4]
  · intro h1 h2 h3
    simp [PaymentXpClient.capture_payment, PaymentXpClient.make_request, h1, h2,
      dictGetE, h3]

/-- C4 (witness): a concrete 200 response with body
`"StatusID=0&TransactionID=ABC123"` authorizes successfully with the
parsed transaction id and the given reference number. -/
theorem authorize_capture_success_parsing_witness :
    sampleClient.authorize_payment (okTransport "StatusID=0&TransactionID=ABC123")
        sampleCard 5 "ref-1"
      = .ok { is_successful := true, transaction_id := "ABC123",
              reference_number := "ref-1" } :=
  (authorize_capture_success_parsing sampleClient
      (okTransport "StatusID=0&TransactionID=ABC123") sampleCard 5 "ref-1" "txid"
      "0" "ABC123" { status_code := 200, content := "StatusID=0&TransactionID=ABC123" }).2.1
    rfl rfl (by decide) (by decide)

/-- C5: a non-200 response raises a `PaymentXpException` whose message
carries the status code and the raw body; on the hard-failure operations
(`charge_card`, `create_recurring_charge`, `get_paysafe_token`,
`cancel_recurring_charge`, `update_recurring_charge`) this fault
propagates to the caller, while `authorize_payment` and `capture_payment`
swallow it into a failure result. -/
theorem non_200_protocol_fault (c : PaymentXpClient) (t : Transport)
    (card : CardInfo) (amount : Rat) (ref txid recur : String)
    (cardOpt : Option CardInfo) (amountOpt : Option Rat) (sdOpt edOpt : Option PDate)
    (iv : Option Int) (sd ed : PDate) (resp : HttpResponse)
    (hne : resp.status_code ≠ 200) :
    request_failed_message resp
      = "Request failed: " ++ toString resp.status_code ++ " " ++ resp.content
    ∧ (t "webhost.aspx" (c.charge_card_data card amount) = .ok resp →
      c.charge_card t card amount
        = .error (.paymentXpException (request_failed_message resp)))
    ∧ (t "webhost.aspx" (c.create_recurring_charge_data card amount sd ed) = .ok resp →
      c.create_recurring_charge t card amount sd ed
        = .error (.paymentXpException (request_failed_message resp)))
    ∧ (t "GetToken.aspx" (c.get_paysafe_token_data card) = .ok resp →
      c.get_paysafe_token t card
        = .error (.paymentXpException (request_failed_message resp)))
    ∧ (t "webHost.aspx" (c.cancel_recurring_charge_data recur) = .ok resp →
      c.cancel_recurring_charge t recur
        = .error (.paymentXpException (request_failed_message resp)))
    ∧ (t "webHost.aspx" (c.update_recurring_charge_data recur cardOpt amountOpt sdOpt edOpt iv)
        = .ok resp →
      c.update_recurring_charge t recur cardOpt amountOpt sdOpt edOpt iv
        = .error (.paymentXpException (request_failed_message resp)))
    ∧ (t "webhost.aspx" (c.authorize_payment_data card amount ref) = .ok resp →
      c.authorize_payment t card amount ref
        = .ok { is_successful := false, transaction_id := "", reference_number := ref })
    ∧ (t "webhost.aspx" (c.capture_payment_data txid ref amount) = .ok resp →
      c.capture_payment t txid ref amount = .ok { is_successful := false }) := by
  refine ⟨rfl, ?_, ?_, ?_, ?_, ?_, ?_, ?_⟩
  · intro h
    simp [PaymentXpClient.charge_card, PaymentXpClient.make_request, h, hne]
  · intro h
    simp [PaymentXpClient.create_recurring_charge, PaymentXpClient.make_request, h, hne]
  · intro h
    simp [PaymentXpClient.get_paysafe_token, PaymentXpClient.make_request, h, hne]
  · intro h
    simp [PaymentXpClient.cancel_recurring_charge, PaymentXpClient.make_request, h, hne]
  · intro h
    simp [PaymentXpClient.update_recurring_charge, PaymentXpClient.make_request, h, hne]
  · intro h
    simp [PaymentXpClient.authorize_payment, PaymentXpClient.make_request, h, hne]
  · intro h
    simp [PaymentXpClient.capture_payment, PaymentXpClient.make_request, h, hne]

/-- C5 (witness): a concrete 500 response makes `charge_card` surface the
protocol fault with status code and body in the message. -/
theorem non_200_protocol_fault_witness :
    sampleClient.charge_card error500Transport sampleCard 5
      = .error (.paymentXpException "Request failed: 500 oops") :=
  (non_200_protocol_fault sampleClient error500Transport sampleCard 5 "ref" "txid"
      "recur" none none none none none ⟨2024, 1, 1⟩ ⟨2024, 2, 1⟩
      { status_code := 500, content := "oops" } (by decide)).2.1 rfl

/-- C6: every `create_recurring_charge` request carries
`MonthOfYearOption = 1`, although the code's own comment says `0` means
"applies to all months" — evaluated here at a concrete input. -/
theorem create_recurring_charge_month_of_year_value :
    dictGet (sampleClient.create_recurring_charge_data sampleCard 10
        ⟨2024, 1, 15⟩ ⟨2025, 1, 15⟩) "MonthOfYearOption" = some (.int 1)
    ∧ dictGet (sampleClient.create_recurring_charge_data sampleCard 10
        ⟨2024, 1, 15⟩ ⟨2025, 1, 15⟩) "TransactionType"
      = some (.str "CreditCardRecurringCharge")
    ∧ dictGet (sampleClient.create_recurring_charge_data sampleCard 10
        ⟨2024, 1, 15⟩ ⟨2025, 1, 15⟩) "OccurenceOption" = some (.int 2)
    ∧ dictGet (sampleClient.create_recurring_charge_data sampleCard 10
        ⟨2024, 1, 15⟩ ⟨2025, 1, 15⟩) "MonthlyOption" = some (.int 1) :=
  ⟨by decide, by decide, by decide, by decide⟩

/-- C7: `update_recurring_charge` with only `amount` supplied sends exactly
`MerchantID, MerchantKey, RecurID, TransactionType, TransactionAmount`;
in general each absent optional argument contributes no keys at all. -/
theorem update_recurring_charge_optional_keys (c : PaymentXpClient)
    (recur : String) (amount : Rat) (cardOpt : Option CardInfo)
    (amountOpt : Option Rat) (sdOpt edOpt : Option PDate) (iv : Option Int) :
    dictKeys (c.update_recurring_charge_data recur none (some amount) none none iv)
      = ["MerchantID", "MerchantKey", "RecurID", "TransactionType", "TransactionAmount"]
    ∧ dictKeys (c.update_recurring_charge_data recur cardOpt amountOpt sdOpt edOpt iv)
      = ["MerchantID", "MerchantKey", "RecurID", "TransactionType"]
        ++ (if cardOpt.isSome then
              ["CardNumber", "ExpirationDateMMYY", "BillingFullName", "BillingAddress",
               "BillingZipCode", "BillingCity", "BillingState"]
            else [])
        ++ (if amountOpt.isSome then ["TransactionAmount"] else [])
        ++ (if sdOpt.isSome then ["StartDate"] else [])
        ++ (if edOpt.isSome then ["EndDate"] else []) := by
  refine ⟨rfl, ?_⟩
  rcases cardOpt with _ | ci <;> rcases amountOpt with _ | a <;>
    rcases sdOpt with _ | s <;> rcases edOpt with _ | e <;> rfl

/-- C8: `get_paysafe_token` sends exactly the card number, CVV2,
expiration and merchant id to the tokenization endpoint; on a 200
response it returns the `Token` field of the parsed response, and when
that key is absent it fails with a `KeyError` — a fault kind distinct
from the transport faults. -/
theorem get_paysafe_token_spec (c : PaymentXpClient) (t : Transport)
    (card : CardInfo) (resp : HttpResponse) (tok : String) :
    dictKeys (c.get_paysafe_token_data card)
      = ["CardNumber", "CVV2", "ExpirationDateMMYY", "MerchantID"]
    ∧ dictGet (c.get_paysafe_token_data card) "CardNumber" = some (.str card.number)
    ∧ dictGet (c.get_paysafe_token_data card) "CVV2" = some (.str card.cvv2)
    ∧ dictGet (c.get_paysafe_token_data card) "ExpirationDateMMYY"
      = some (.str card.expiration)
    ∧ dictGet (c.get_paysafe_token_data card) "MerchantID" = some (.str c.merchant_id)
    ∧ (t "GetToken.aspx" (c.get_paysafe_token_data card) = .ok resp →
      resp.status_code = 200 →
      dictGet (parse_response resp.content) "Token" = some tok →
      c.get_paysafe_token t card = .ok tok)
    ∧ (t "GetToken.aspx" (c.get_paysafe_token_data card) = .ok resp →
      resp.status_code = 200 →
      dictGet (parse_response resp.content) "Token" = none →
      c.get_paysafe_token t card = .error (.keyError "Token")) := by
  refine ⟨rfl, rfl, rfl, rfl, rfl, ?_, ?_⟩
  · intro h1 h2 h3
    simp [PaymentXpClient.get_paysafe_token, PaymentXpClient.make_request, h1, h2,
      dictGetE, h3]
  · intro h1 h2 h3
    simp [PaymentXpClient.get_paysafe_token, PaymentXpClient.make_request, h1, h2,
      dictGetE, h3]

/-- C8 (witness): a concrete 200 response with body `"Token=abc"` yields
the token `"abc"`. -/
theorem get_paysafe_token_spec_witness :
    sampleClient.get_paysafe_token (okTransport "Token=abc") sampleCard = .ok "abc" :=
  (get_paysafe_token_spec sampleClient (okTransport "Token=abc") sampleCard
      { status_code := 200, content := "Token=abc" } "abc").2.2.2.2.2.1
    rfl rfl (by decide)

/-- C9: the `interval` argument of `update_recurring_charge` is dead: any
two values (including absent) give the identical request dictionary and
the identical result against any transport. -/
theorem update_recurring_charge_interval_dead (c : PaymentXpClient) (t : Transport)
    (recur : String) (cardOpt : Option CardInfo) (amountOpt : Option Rat)
    (sdOpt edOpt : Option PDate) (i1 i2 : Option Int) :
    c.update_recurring_charge_data recur cardOpt amountOpt sdOpt edOpt i1
      = c.update_recurring_charge_data recur cardOpt amountOpt sdOpt edOpt i2
    ∧ c.update_recurring_charge t recur cardOpt amountOpt sdOpt edOpt i1
      = c.update_recurring_charge t recur cardOpt amountOpt sdOpt edOpt i2 :=
  ⟨rfl, rfl⟩

set_option maxHeartbeats 1000000 in
/-- C10: the card's CVV2 is sent only by `get_paysafe_token`: the request
dictionaries of `authorize_payment`, `charge_card`,
`create_recurring_charge` and `update_recurring_charge` (for every
combination of optional arguments) contain no `CVV2` key, while
`get_paysafe_token`'s does. -/
theorem cvv2_only_in_tokenization (c : PaymentXpClient) (card : CardInfo)
    (amount : Rat) (ref recur : String) (sd ed : PDate) (cardOpt : Option CardInfo)
    (amountOpt : Option Rat) (sdOpt edOpt : Option PDate) (iv : Option Int) :
    (dictKeys (c.authorize_payment_data card amount ref)).contains "CVV2" = false
    ∧ (dictKeys (c.charge_card_data card amount)).contains "CVV2" = false
    ∧ (dictKeys (c.create_recurring_charge_data card amount sd ed)).contains "CVV2" = false
    ∧ (dictKeys (c.update_recurring_charge_data recur cardOpt amountOpt sdOpt edOpt iv)).contains
        "CVV2" = false
    ∧ (dictKeys (c.get_paysafe_token_data card)).contains "CVV2" = true := by
  refine ⟨rfl, rfl, rfl, ?_, rfl⟩
  rcases cardOpt with _ | ci <;> rcases amountOpt with _ | a <;>
    rcases sdOpt with _ | s <;> rcases edOpt with _ | e <;> rfl

end PaymentXp
